import Mathlib

/-!
Verification of `MicroPython/Examples/Basics/1-HelloWorld.py`.

The script is a single linear procedure.  We embed it as an event trace:
each call the script makes to an external collaborator (Pin, SPI, Display,
XglcdFont, sleep, and the display's drawing / lifecycle operations) is
recorded as an `Event`, in source order.  The external collaborators may
raise an error: an `Env` records, for each fallible call, whether it
raises when executed.  Execution stops right after the first raising call
(the invocation happened, then the error propagated; the script installs
no handler), so a run's trace is a prefix of the full trace of events.
-/

/-- The SPI bus handle built on line 20:
`SPI(1, baudrate=40000000, sck=Pin(14), mosi=Pin(13))`. -/
structure SPIHandle where
  id : Nat
  baudrate : Nat
  sck : Nat
  mosi : Nat
deriving DecidableEq

/-- The font handle built by `XglcdFont(path, width, height)` (line 27). -/
structure FontHandle where
  path : String
  width : Nat
  height : Nat
deriving DecidableEq

/-- One invocation of an external collaborator, in the order the script
makes them. `pinNew n asOutput` is `Pin(n, Pin.OUT)` when `asOutput` is
true and `Pin(n)` otherwise; `pinOn` is `.on()`; `displayNew` records the
SPI handle, the list of control-pin numbers passed (`dc`, `cs`, `bl`, in
keyword order) and the rotation; the rest are literal. -/
inductive Event where
  | pinNew (pin : Nat) (asOutput : Bool)
  | pinOn (pin : Nat)
  | spiNew (spi : SPIHandle)
  | displayNew (spi : SPIHandle) (ctrlPins : List Nat) (rotation : Nat)
  | drawText8x8 (x : Nat) (y : Nat) (s : String) (color : Nat)
  | fontNew (font : FontHandle)
  | drawText (x : Nat) (y : Nat) (s : String) (font : FontHandle) (color : Nat)
  | sleepCall (seconds : Nat)
  | callPrintText
  | clear
  | cleanup
  | backlightOff
deriving DecidableEq

/-- Modelled from the spec: `color565` of the external display library is
not under src/; per the glossary it packs 5 bits of red, 6 of green and
5 of blue into one 16-bit integer. -/
def color565 (r g b : Nat) : Nat :=
  ((r >>> 3) <<< 11) ||| ((g >>> 2) <<< 5) ||| (b >>> 3)

/-- The SPI handle the script builds (line 20). -/
def theSPI : SPIHandle := ⟨1, 40000000, 14, 13⟩

/-- The font object `robotron` built on line 27:
`XglcdFont('fonts/Robotron13x21.c', 13, 21)`. -/
def robotron : FontHandle := ⟨"fonts/Robotron13x21.c", 13, 21⟩

/-- Which external calls raise when executed.  `pinFails n` is a raise in
`Pin(n, ...)`; the others name the script's remaining fallible calls.
(`sleep`, `clear`, `cleanup` and `backlight_off` are kept infallible: the
claims only concern failures before teardown.) -/
structure Env where
  pinFails : Nat → Bool
  spiFails : Bool
  displayFails : Bool
  draw8x8Fails : Bool
  fontFails : Bool
  drawTextFails : Bool

/-- The full event trace of `printText` (lines 20-33) when no call
raises, in source order (Python evaluates call arguments left to right,
so each `Pin(...)` argument precedes its enclosing constructor call). -/
def fullPrintTrace : List Event :=
  [Event.pinNew 14 false,
   Event.pinNew 13 false,
   Event.spiNew theSPI,
   Event.pinNew 2 false,
   Event.pinNew 15 false,
   Event.pinNew 21 false,
   Event.displayNew theSPI [2, 15, 21] 180,
   Event.drawText8x8 20 80 "Hello World!" (color565 255 0 255),
   Event.fontNew robotron,
   Event.drawText 20 155 "HELLO WORLD!" robotron (color565 255 255 255),
   Event.sleepCall 10,
   Event.clear,
   Event.cleanup,
   Event.backlightOff]

/-- The trace of one run of `printText` under `env`, together with
whether the run completed normally.  Execution stops right after the
first raising call, so the trace is the prefix of `fullPrintTrace` up to
and including that call. -/
def printTextTrace (env : Env) : List Event × Bool :=
  if env.pinFails 14 then (fullPrintTrace.take 1, false)
  else if env.pinFails 13 then (fullPrintTrace.take 2, false)
  else if env.spiFails then (fullPrintTrace.take 3, false)
  else if env.pinFails 2 then (fullPrintTrace.take 4, false)
  else if env.pinFails 15 then (fullPrintTrace.take 5, false)
  else if env.pinFails 21 then (fullPrintTrace.take 6, false)
  else if env.displayFails then (fullPrintTrace.take 7, false)
  else if env.draw8x8Fails then (fullPrintTrace.take 8, false)
  else if env.fontFails then (fullPrintTrace.take 9, false)
  else if env.drawTextFails then (fullPrintTrace.take 10, false)
  else (fullPrintTrace, true)

/-- The full event trace of the whole module when no call raises: the
LED setup of lines 8-14, the top-level `printText()` call of line 35,
then the events of `printText` itself. -/
def fullModuleTrace : List Event :=
  [Event.pinNew 4 true,
   Event.pinNew 16 true,
   Event.pinNew 17 true,
   Event.pinOn 4,
   Event.pinOn 16,
   Event.pinOn 17,
   Event.callPrintText] ++ fullPrintTrace

/-- The trace of one run of the whole module under `env`. -/
def moduleTrace (env : Env) : List Event × Bool :=
  if env.pinFails 4 then (fullModuleTrace.take 1, false)
  else if env.pinFails 16 then (fullModuleTrace.take 2, false)
  else if env.pinFails 17 then (fullModuleTrace.take 3, false)
  else (fullModuleTrace.take 7 ++ (printTextTrace env).1, (printTextTrace env).2)

/-- The guard `printTextTrace` consults at its `k`-th fallible call
(1-based); `false` outside `1..10`. -/
def failFlagAt (env : Env) : Nat → Bool
  | 1 => env.pinFails 14
  | 2 => env.pinFails 13
  | 3 => env.spiFails
  | 4 => env.pinFails 2
  | 5 => env.pinFails 15
  | 6 => env.pinFails 21
  | 7 => env.displayFails
  | 8 => env.draw8x8Fails
  | 9 => env.fontFails
  | 10 => env.drawTextFails
  | _ => false

/-- True of the two drawing calls `draw_text8x8` and `draw_text`. -/
def Event.isDraw : Event → Bool
  | .drawText8x8 _ _ _ _ => true
  | .drawText _ _ _ _ _ => true
  | _ => false

/-- True of a `draw_text` (font-based) call. -/
def Event.isDrawTextCall : Event → Bool
  | .drawText _ _ _ _ _ => true
  | _ => false

/-- True of an `SPI(...)` construction. -/
def Event.isSpiNewCall : Event → Bool
  | .spiNew _ => true
  | _ => false

/-- True of a `Display(...)` construction. -/
def Event.isDisplayNewCall : Event → Bool
  | .displayNew _ _ _ => true
  | _ => false

/-- True of an `XglcdFont(...)` construction. -/
def Event.isFontNewCall : Event → Bool
  | .fontNew _ => true
  | _ => false

/-- True of a `sleep(...)` call. -/
def Event.isSleepCall : Event → Bool
  | .sleepCall _ => true
  | _ => false

/-- True of the module-level LED setup events (lines 8-14): an output-mode
pin construction or an `.on()` call. -/
def Event.isLedSetup : Event → Bool
  | .pinNew _ asOutput => asOutput
  | .pinOn _ => true
  | _ => false

/-- True of the SPI, display, font and draw operations (the work
`printText` does against the peripherals). -/
def Event.isDeviceOp (e : Event) : Bool :=
  e.isSpiNewCall || e.isDisplayNewCall || e.isFontNewCall || e.isDraw

/-- Number of control pins a `Display(...)` construction passes. -/
def Event.ctrlPinCount : Event → Nat
  | .displayNew _ ctrlPins _ => ctrlPins.length
  | _ => 0

/-- Index of the first occurrence of `e` (length of the list if absent). -/
def idxOf (e : Event) : List Event → Nat
  | [] => 0
  | x :: xs => if x = e then 0 else idxOf e xs + 1

/-- `a` and `b` both occur in `tr` and the first occurrence of `a`
precedes the first occurrence of `b`. -/
abbrev eventBefore (a b : Event) (tr : List Event) : Prop :=
  a ∈ tr ∧ b ∈ tr ∧ idxOf a tr < idxOf b tr

/-- The first draw call of line 24:
`display.draw_text8x8(20, 80, 'Hello World!', color565(255, 0, 255))`. -/
def draw8x8Ev : Event :=
  Event.drawText8x8 20 80 "Hello World!" (color565 255 0 255)

/-- The second draw call of line 28:
`display.draw_text(20, 155, 'HELLO WORLD!', robotron, color565(255, 255, 255))`. -/
def drawTextEv : Event :=
  Event.drawText 20 155 "HELLO WORLD!" robotron (color565 255 255 255)

/-- The SPI construction event of line 20. -/
def spiEv : Event := Event.spiNew theSPI

/-- The display construction event of line 21. -/
def displayEv : Event := Event.displayNew theSPI [2, 15, 21] 180

/-- The font load event of line 27. -/
def fontEv : Event := Event.fontNew robotron

/-- An environment in which no external call raises (the normal run). -/
def env0 : Env := ⟨fun _ => false, false, false, false, false, false⟩

/-- An environment in which only the font load raises. -/
def envFontFail : Env := ⟨fun _ => false, false, false, false, true, false⟩

/-- State of one GPIO pin: whether it was constructed in output mode, and
its logical output level (`none` while never driven). -/
structure PinSt where
  output : Bool
  level : Option Bool
deriving DecidableEq

/-- Effect of one event on the state of pin `n`.  `Pin(n, ...)` resets
the pin (mode from the constructor, level not yet driven); `.on()` drives
it high; other events leave it alone. -/
def pinApply (n : Nat) (st : Option PinSt) : Event → Option PinSt
  | .pinNew m asOutput => if m = n then some ⟨asOutput, none⟩ else st
  | .pinOn m =>
      if m = n then
        match st with
        | some s => some ⟨s.output, some true⟩
        | none => none
      else st
  | _ => st

/-- State of pin `n` after running the events of `tr` in order. -/
def pinStateAfter (tr : List Event) (n : Nat) : Option PinSt :=
  tr.foldl (pinApply n) none

/-- The pin-initialization step, lines 8-14: the three LED pins are
constructed in output mode and driven high. -/
def ledSetupEvents : List Event :=
  [Event.pinNew 4 true, Event.pinNew 16 true, Event.pinNew 17 true,
   Event.pinOn 4, Event.pinOn 16, Event.pinOn 17]

/-- Teardown discipline of lines 31-33: `clear`, `cleanup` and
`backlight_off` each happen exactly once, in that order after the sleep,
and no draw call happens at or after the `clear`. -/
abbrev teardownAfterSleep (tr : List Event) : Prop :=
  tr.count Event.clear = 1 ∧
  tr.count Event.cleanup = 1 ∧
  tr.count Event.backlightOff = 1 ∧
  eventBefore (Event.sleepCall 10) Event.clear tr ∧
  eventBefore Event.clear Event.cleanup tr ∧
  eventBefore Event.cleanup Event.backlightOff tr ∧
  ∀ i : Fin tr.length, (tr.get i).isDraw = true → i.1 < idxOf Event.clear tr

/-- The first draw call, when any draw call happens, is line 24's
`draw_text8x8(20, 80, 'Hello World!', color565(255, 0, 255))`, and it
precedes every font load and every `draw_text` call. -/
abbrev firstDrawProp (tr : List Event) : Prop :=
  ((tr.filter Event.isDraw).head? = none ∨
   (tr.filter Event.isDraw).head? = some draw8x8Ev) ∧
  (∀ e ∈ tr, e.isFontNewCall = true → eventBefore draw8x8Ev e tr) ∧
  (∀ e ∈ tr, e.isDrawTextCall = true → eventBefore draw8x8Ev e tr)

/-- The draw calls of the run are exactly line 24's `draw_text8x8` then
line 28's `draw_text(20, 155, 'HELLO WORLD!', robotron,
color565(255, 255, 255))`, the font load precedes the second draw, and
the font object has the glyph-table path and the 13x21 cell dimensions
of line 27. -/
abbrev secondDrawProp (tr : List Event) : Prop :=
  tr.filter Event.isDraw = [draw8x8Ev, drawTextEv] ∧
  eventBefore fontEv drawTextEv tr ∧
  robotron.path = "fonts/Robotron13x21.c" ∧
  robotron.width = 13 ∧ robotron.height = 21

/-- Every SPI construction of the run is line 20's
`SPI(1, baudrate=40000000, sck=Pin(14), mosi=Pin(13))`, and every
display construction is preceded by that SPI construction. -/
abbrev spiDisplayProp (tr : List Event) : Prop :=
  (∀ e ∈ tr, e.isSpiNewCall = true → e = spiEv) ∧
  (∀ e ∈ tr, e.isDisplayNewCall = true → eventBefore spiEv e tr)

/-- The run's only sleep call is `sleep(10)` (line 30), it happens at
most once, and when it happens it follows both draw calls and precedes
each teardown operation that happens. -/
abbrev sleepProp (tr : List Event) : Prop :=
  (∀ e ∈ tr, e.isSleepCall = true → e = Event.sleepCall 10) ∧
  tr.count (Event.sleepCall 10) ≤ 1 ∧
  (Event.sleepCall 10 ∈ tr →
     eventBefore draw8x8Ev (Event.sleepCall 10) tr ∧
     eventBefore drawTextEv (Event.sleepCall 10) tr) ∧
  (∀ e ∈ tr, (e = Event.clear ∨ e = Event.cleanup ∨ e = Event.backlightOff) →
     Event.sleepCall 10 ∈ tr → eventBefore (Event.sleepCall 10) e tr)

/-- Module-level ordering: `printText()` is called at most once, all LED
setup precedes that call and every device (SPI / display / font / draw)
operation, and at the moment of the `printText()` call each LED pin is
an output driven high. -/
abbrev moduleOrderProp (tr : List Event) : Prop :=
  tr.count Event.callPrintText ≤ 1 ∧
  (∀ i j : Fin tr.length,
     (tr.get i).isLedSetup = true → tr.get j = Event.callPrintText → i.1 < j.1) ∧
  (∀ i j : Fin tr.length,
     (tr.get i).isLedSetup = true → (tr.get j).isDeviceOp = true → i.1 < j.1) ∧
  (∀ i : Fin tr.length, tr.get i = Event.callPrintText →
     ∀ n ∈ [4, 16, 17], pinStateAfter (tr.take i.1) n = some ⟨true, some true⟩)

/-- Every run of `printText` either completes with the full trace (all
guards false), or stops with `fullPrintTrace.take k` for some `1 ≤ k ≤ 10`
where the `k`-th guard is the first true one. -/
lemma printTextTrace_shape (env : Env) :
    (printTextTrace env = (fullPrintTrace, true) ∧ ∀ j, failFlagAt env j = false) ∨
    ∃ k, 1 ≤ k ∧ k ≤ 10 ∧ printTextTrace env = (fullPrintTrace.take k, false) ∧
      failFlagAt env k = true ∧ ∀ j, j < k → failFlagAt env j = false := by
  by_cases h1 : env.pinFails 14 = true
  · refine Or.inr ⟨1, by omega, by omega, by simp [printTextTrace, h1], by simpa [failFlagAt] using h1, ?_⟩
    intro j hj
    interval_cases j
    · simp [failFlagAt]
  simp only [Bool.not_eq_true] at h1
  by_cases h2 : env.pinFails 13 = true
  · refine Or.inr ⟨2, by omega, by omega, by simp [printTextTrace, h1, h2], by simpa [failFlagAt] using h2, ?_⟩
    intro j hj
    interval_cases j <;> simp [failFlagAt, h1]
  simp only [Bool.not_eq_true] at h2
  by_cases h3 : env.spiFails = true
  · refine Or.inr ⟨3, by omega, by omega, by simp [printTextTrace, h1, h2, h3], by simpa [failFlagAt] using h3, ?_⟩
    intro j hj
    interval_cases j <;> simp [failFlagAt, h1, h2]
  simp only [Bool.not_eq_true] at h3
  by_cases h4 : env.pinFails 2 = true
  · refine Or.inr ⟨4, by omega, by omega, by simp [printTextTrace, h1, h2, h3, h4], by simpa [failFlagAt] using h4, ?_⟩
    intro j hj
    interval_cases j <;> simp [failFlagAt, h1, h2, h3]
  simp only [Bool.not_eq_true] at h4
  by_cases h5 : env.pinFails 15 = true
  · refine Or.inr ⟨5, by omega, by omega, by simp [printTextTrace, h1, h2, h3, h4, h5], by simpa [failFlagAt] using h5, ?_⟩
    intro j hj
    interval_cases j <;> simp [failFlagAt, h1, h2, h3, h4]
  simp only [Bool.not_eq_true] at h5
  by_cases h6 : env.pinFails 21 = true
  · refine Or.inr ⟨6, by omega, by omega, by simp [printTextTrace, h1, h2, h3, h4, h5, h6], by simpa [failFlagAt] using h6, ?_⟩
    intro j hj
    interval_cases j <;> simp [failFlagAt, h1, h2, h3, h4, h5]
  simp only [Bool.not_eq_true] at h6
  by_cases h7 : env.displayFails = true
  · refine Or.inr ⟨7, by omega, by omega, by simp [printTextTrace, h1, h2, h3, h4, h5, h6, h7], by simpa [failFlagAt] using h7, ?_⟩
    intro j hj
    interval_cases j <;> simp [failFlagAt, h1, h2, h3, h4, h5, h6]
  simp only [Bool.not_eq_true] at h7
  by_cases h8 : env.draw8x8Fails = true
  · refine Or.inr ⟨8, by omega, by omega, by simp [printTextTrace, h1, h2, h3, h4, h5, h6, h7, h8], by simpa [failFlagAt] using h8, ?_⟩
    intro j hj
    interval_cases j <;> simp [failFlagAt, h1, h2, h3, h4, h5, h6, h7]
  simp only [Bool.not_eq_true] at h8
  by_cases h9 : env.fontFails = true
  · refine Or.inr ⟨9, by omega, by omega, by simp [printTextTrace, h1, h2, h3, h4, h5, h6, h7, h8, h9], by simpa [failFlagAt] using h9, ?_⟩
    intro j hj
    interval_cases j <;> simp [failFlagAt, h1, h2, h3, h4, h5, h6, h7, h8]
  simp only [Bool.not_eq_true] at h9
  by_cases h10 : env.drawTextFails = true
  · refine Or.inr ⟨10, by omega, by omega, by simp [printTextTrace, h1, h2, h3, h4, h5, h6, h7, h8, h9, h10], by simpa [failFlagAt] using h10, ?_⟩
    intro j hj
    interval_cases j <;> simp [failFlagAt, h1, h2, h3, h4, h5, h6, h7, h8, h9]
  simp only [Bool.not_eq_true] at h10
  refine Or.inl ⟨by simp [printTextTrace, h1, h2, h3, h4, h5, h6, h7, h8, h9, h10], ?_⟩
  intro j
  match j with
  | 0 => simp [failFlagAt]
  | 1 => simpa [failFlagAt] using h1
  | 2 => simpa [failFlagAt] using h2
  | 3 => simpa [failFlagAt] using h3
  | 4 => simpa [failFlagAt] using h4
  | 5 => simpa [failFlagAt] using h5
  | 6 => simpa [failFlagAt] using h6
  | 7 => simpa [failFlagAt] using h7
  | 8 => simpa [failFlagAt] using h8
  | 9 => simpa [failFlagAt] using h9
  | 10 => simpa [failFlagAt] using h10
  | (n + 11) => simp [failFlagAt]

/-- Gluing helper: a module prefix of the LED setup followed by a prefix
of the `printText` events is a prefix of the full module trace. -/
lemma take_module : ∀ k : Fin 15,
    fullModuleTrace.take 7 ++ fullPrintTrace.take k.1 = fullModuleTrace.take (7 + k.1) := by
  decide

/-- Every run of the module either completes with the full trace, stops
during the LED setup (`k ≤ 3`), or runs the LED setup and the
`printText()` call and then stops inside `printText` (`8 ≤ k ≤ 17`). -/
lemma moduleTrace_shape (env : Env) :
    moduleTrace env = (fullModuleTrace, true) ∨
    ∃ k, 1 ≤ k ∧ k ≤ 17 ∧ moduleTrace env = (fullModuleTrace.take k, false) := by
  by_cases g4 : env.pinFails 4 = true
  · exact Or.inr ⟨1, by omega, by omega, by simp [moduleTrace, g4]⟩
  simp only [Bool.not_eq_true] at g4
  by_cases g16 : env.pinFails 16 = true
  · exact Or.inr ⟨2, by omega, by omega, by simp [moduleTrace, g4, g16]⟩
  simp only [Bool.not_eq_true] at g16
  by_cases g17 : env.pinFails 17 = true
  · exact Or.inr ⟨3, by omega, by omega, by simp [moduleTrace, g4, g16, g17]⟩
  simp only [Bool.not_eq_true] at g17
  have hm : moduleTrace env
      = (fullModuleTrace.take 7 ++ (printTextTrace env).1, (printTextTrace env).2) := by
    simp [moduleTrace, g4, g16, g17]
  rcases printTextTrace_shape env with ⟨hfull, -⟩ | ⟨k, hk1, hk2, heq, -, -⟩
  · left
    rw [hm, hfull]
    decide
  · right
    refine ⟨7 + k, by omega, by omega, ?_⟩
    rw [hm, heq]
    rw [take_module ⟨k, by omega⟩]

/-- No truncated run reaches the sleep call. -/
lemma no_sleep_take : ∀ k : Fin 11, Event.sleepCall 10 ∉ fullPrintTrace.take k.1 := by
  decide

/-- No truncated run contains a `draw_text` call past the font load. -/
lemma noDrawText_take : ∀ k : Fin 10,
    (∀ e ∈ fullPrintTrace.take k.1, e.isDrawTextCall = false) ∧
    Event.sleepCall 10 ∉ fullPrintTrace.take k.1 := by
  decide

/-- `firstDrawProp` holds on every truncated run. -/
lemma firstDraw_take : ∀ k : Fin 11, firstDrawProp (fullPrintTrace.take k.1) := by
  decide

/-- The font-load event only appears once at least 9 events happened. -/
lemma font_mem_take : ∀ k : Fin 11, fontEv ∈ fullPrintTrace.take k.1 → 9 ≤ k.1 := by
  decide

/-- `spiDisplayProp` holds on every truncated run. -/
lemma spiDisplay_take : ∀ k : Fin 11, spiDisplayProp (fullPrintTrace.take k.1) := by
  decide

/-- No truncated run contains a teardown operation. -/
lemma noTeardown_take : ∀ k : Fin 11,
    Event.clear ∉ fullPrintTrace.take k.1 ∧
    Event.cleanup ∉ fullPrintTrace.take k.1 ∧
    Event.backlightOff ∉ fullPrintTrace.take k.1 := by
  decide

/-- `sleepProp` holds on every truncated run. -/
lemma sleep_take : ∀ k : Fin 11, sleepProp (fullPrintTrace.take k.1) := by
  decide

/-- The display-construction conclusion holds on every truncated run. -/
lemma display_take : ∀ k : Fin 11,
    ∀ e ∈ fullPrintTrace.take k.1, e.isDisplayNewCall = true →
      e = Event.displayNew theSPI [2, 15, 21] 180 ∧ e.ctrlPinCount = 3 := by
  decide

/-- `moduleOrderProp` holds on every truncated module run. -/
lemma moduleOrder_take : ∀ k : Fin 18, moduleOrderProp (fullModuleTrace.take k.1) := by
  decide

/-- The `printText` events never touch the LED pins: they preserve an
output-high LED pin state. -/
lemma pinState_stable : ∀ k : Fin 11, ∀ n ∈ [4, 16, 17],
    List.foldl (pinApply n) (some ⟨true, some true⟩) (fullPrintTrace.take k.1)
      = some ⟨true, some true⟩ := by
  decide

/-- C1: in every run of `printText` in which the delay is reached,
`clear`, `cleanup` and `backlight_off` are each invoked exactly once, in
that relative order, all after the delay, and no draw call occurs after
any of them. -/
theorem claim_C1 (env : Env) (h : Event.sleepCall 10 ∈ (printTextTrace env).1) :
    teardownAfterSleep (printTextTrace env).1 := by
  rcases printTextTrace_shape env with ⟨hfull, -⟩ | ⟨k, hk1, hk2, heq, -, -⟩
  · rw [hfull]
    decide
  · rw [heq] at h
    exact absurd h (no_sleep_take ⟨k, by omega⟩)

/-- Witness for C1 at the no-failure environment. -/
theorem claim_C1_witness :
    Event.sleepCall 10 ∈ (printTextTrace env0).1 ∧
    teardownAfterSleep (printTextTrace env0).1 :=
  ⟨by decide, claim_C1 env0 (by decide)⟩

/-- C2: if the font load fails, the `draw_text` call never occurs and the
procedure terminates by propagating the error without reaching the delay. -/
theorem claim_C2 (env : Env) (h : env.fontFails = true) :
    (∀ e ∈ (printTextTrace env).1, e.isDrawTextCall = false) ∧
    Event.sleepCall 10 ∉ (printTextTrace env).1 ∧
    (printTextTrace env).2 = false := by
  rcases printTextTrace_shape env with ⟨-, hflags⟩ | ⟨k, hk1, hk2, heq, hkflag, hprev⟩
  · have h9 := hflags 9
    simp [failFlagAt, h] at h9
  · have hk9 : k ≤ 9 := by
      by_contra hgt
      have h9 := hprev 9 (by omega)
      simp [failFlagAt, h] at h9
    rw [heq]
    exact ⟨(noDrawText_take ⟨k, by omega⟩).1, (noDrawText_take ⟨k, by omega⟩).2, rfl⟩

/-- Witness for C2 at the environment where only the font load raises. -/
theorem claim_C2_witness :
    envFontFail.fontFails = true ∧
    ((∀ e ∈ (printTextTrace envFontFail).1, e.isDrawTextCall = false) ∧
     Event.sleepCall 10 ∉ (printTextTrace envFontFail).1 ∧
     (printTextTrace envFontFail).2 = false) :=
  ⟨rfl, claim_C2 envFontFail rfl⟩

/-- C3: in every run of `printText`, the first draw call (when one
occurs) is `draw_text8x8(20, 80, 'Hello World!', color565(255, 0, 255))`,
and it occurs before the font load and before the `draw_text` call. -/
theorem claim_C3 (env : Env) : firstDrawProp (printTextTrace env).1 := by
  rcases printTextTrace_shape env with ⟨hfull, -⟩ | ⟨k, hk1, hk2, heq, -, -⟩
  · rw [hfull]
    decide
  · rw [heq]
    exact firstDraw_take ⟨k, by omega⟩

/-- Witness for C3 at the no-failure environment. -/
theorem claim_C3_witness : firstDrawProp (printTextTrace env0).1 :=
  claim_C3 env0

/-- C4: in every run whose font load happens and succeeds, the second
draw call is `draw_text(20, 155, 'HELLO WORLD!', robotron,
color565(255, 255, 255))` with the just-loaded 13x21 font object. -/
theorem claim_C4 (env : Env) (h : env.fontFails = false)
    (hreach : fontEv ∈ (printTextTrace env).1) :
    secondDrawProp (printTextTrace env).1 := by
  rcases printTextTrace_shape env with ⟨hfull, -⟩ | ⟨k, hk1, hk2, heq, hkflag, -⟩
  · rw [hfull]
    decide
  · rw [heq] at hreach ⊢
    have hk9 : 9 ≤ k := font_mem_take ⟨k, by omega⟩ hreach
    have hne : k ≠ 9 := by
      intro he
      rw [he] at hkflag
      simp [failFlagAt, h] at hkflag
    have hk10 : k = 10 := by omega
    subst hk10
    decide

/-- Witness for C4 at the no-failure environment. -/
theorem claim_C4_witness :
    env0.fontFails = false ∧ fontEv ∈ (printTextTrace env0).1 ∧
    secondDrawProp (printTextTrace env0).1 :=
  ⟨rfl, by decide, claim_C4 env0 rfl (by decide)⟩

/-- C5: in every run, every SPI construction is
`SPI(1, baudrate=40000000, sck=Pin(14), mosi=Pin(13))`, every display
construction is strictly preceded by it, and a completed run does
construct the SPI handle. -/
theorem claim_C5 (env : Env) :
    spiDisplayProp (printTextTrace env).1 ∧
    ((printTextTrace env).2 = true → spiEv ∈ (printTextTrace env).1) := by
  rcases printTextTrace_shape env with ⟨hfull, -⟩ | ⟨k, hk1, hk2, heq, -, -⟩
  · rw [hfull]
    exact ⟨by decide, fun _ => by decide⟩
  · rw [heq]
    exact ⟨spiDisplay_take ⟨k, by omega⟩, fun hc => Bool.noConfusion hc⟩

/-- Witness for C5 at the no-failure environment. -/
theorem claim_C5_witness :
    spiDisplayProp (printTextTrace env0).1 ∧
    ((printTextTrace env0).2 = true → spiEv ∈ (printTextTrace env0).1) :=
  claim_C5 env0

/-- C6: after the pin-initialization step (and for the rest of any run
whose LED pin constructions succeed), each of the three LED pins is an
output whose logical level is high. -/
theorem claim_C6 (env : Env) (h4 : env.pinFails 4 = false)
    (h16 : env.pinFails 16 = false) (h17 : env.pinFails 17 = false) :
    (moduleTrace env).1.take 6 = ledSetupEvents ∧
    (∀ n ∈ [4, 16, 17], pinStateAfter ledSetupEvents n = some ⟨true, some true⟩) ∧
    (∀ n ∈ [4, 16, 17], pinStateAfter (moduleTrace env).1 n = some ⟨true, some true⟩) := by
  have hm : moduleTrace env
      = (fullModuleTrace.take 7 ++ (printTextTrace env).1, (printTextTrace env).2) := by
    simp [moduleTrace, h4, h16, h17]
  refine ⟨?_, by decide, ?_⟩
  · rw [hm]
    rw [List.take_append_of_le_length (by decide)]
    decide
  · simp only [hm]
    intro n hn
    unfold pinStateAfter
    rw [List.foldl_append]
    have hb : List.foldl (pinApply n) none (fullModuleTrace.take 7)
        = some ⟨true, some true⟩ := by
      fin_cases hn <;> decide
    rw [hb]
    rcases printTextTrace_shape env with ⟨hfull, -⟩ | ⟨k, hk1, hk2, heq, -, -⟩
    · rw [hfull]
      fin_cases hn <;> decide
    · rw [heq]
      exact pinState_stable ⟨k, by omega⟩ n hn

/-- Witness for C6 at the no-failure environment. -/
theorem claim_C6_witness :
    (env0.pinFails 4 = false ∧ env0.pinFails 16 = false ∧ env0.pinFails 17 = false) ∧
    ((moduleTrace env0).1.take 6 = ledSetupEvents ∧
     (∀ n ∈ [4, 16, 17], pinStateAfter ledSetupEvents n = some ⟨true, some true⟩) ∧
     (∀ n ∈ [4, 16, 17], pinStateAfter (moduleTrace env0).1 n = some ⟨true, some true⟩)) :=
  ⟨⟨rfl, rfl, rfl⟩, claim_C6 env0 rfl rfl rfl⟩

/-- C7 counterexample: in the no-failure run the display construction
happens, and it passes three control pins (dc=2, cs=15, bl=21), not
four as the claim states. -/
theorem claim_C7_counterexample :
    displayEv ∈ (printTextTrace env0).1 ∧
    displayEv.ctrlPinCount = 3 ∧ ¬ displayEv.ctrlPinCount = 4 := by
  decide

/-- C7 (amended): in every run, every display construction composes the
SPI bus handle with the three control pins dc=2, cs=15, bl=21 and the
rotation value 180. -/
theorem claim_C7 (env : Env) :
    ∀ e ∈ (printTextTrace env).1, e.isDisplayNewCall = true →
      e = Event.displayNew theSPI [2, 15, 21] 180 ∧ e.ctrlPinCount = 3 := by
  rcases printTextTrace_shape env with ⟨hfull, -⟩ | ⟨k, hk1, hk2, heq, -, -⟩
  · rw [hfull]
    decide
  · rw [heq]
    exact display_take ⟨k, by omega⟩

/-- Witness for C7 (amended) at the no-failure environment. -/
theorem claim_C7_witness :
    displayEv ∈ (printTextTrace env0).1 ∧
    (displayEv = Event.displayNew theSPI [2, 15, 21] 180 ∧
     displayEv.ctrlPinCount = 3) :=
  ⟨by decide, claim_C7 env0 displayEv (by decide) (by decide)⟩

/-- C8: if the run of `printText` exits abnormally (some call before
teardown raised), then none of `clear`, `cleanup`, `backlight_off` was
invoked: resource release is not guaranteed on abnormal exit. -/
theorem claim_C8 (env : Env) (h : (printTextTrace env).2 = false) :
    Event.clear ∉ (printTextTrace env).1 ∧
    Event.cleanup ∉ (printTextTrace env).1 ∧
    Event.backlightOff ∉ (printTextTrace env).1 := by
  rcases printTextTrace_shape env with ⟨hfull, -⟩ | ⟨k, hk1, hk2, heq, -, -⟩
  · rw [hfull] at h
    exact Bool.noConfusion h
  · rw [heq]
    exact noTeardown_take ⟨k, by omega⟩

/-- Witness for C8 at the environment where the font load raises. -/
theorem claim_C8_witness :
    (printTextTrace envFontFail).2 = false ∧
    (Event.clear ∉ (printTextTrace envFontFail).1 ∧
     Event.cleanup ∉ (printTextTrace envFontFail).1 ∧
     Event.backlightOff ∉ (printTextTrace envFontFail).1) :=
  ⟨by decide, claim_C8 envFontFail (by decide)⟩

/-- C9: the only sleep call is `sleep(10)`, it happens at most once, and
when it happens it is after both draw calls and before every teardown
operation. -/
theorem claim_C9 (env : Env) : sleepProp (printTextTrace env).1 := by
  rcases printTextTrace_shape env with ⟨hfull, -⟩ | ⟨k, hk1, hk2, heq, -, -⟩
  · rw [hfull]
    decide
  · rw [heq]
    exact sleep_take ⟨k, by omega⟩

/-- Witness for C9 at the no-failure environment. -/
theorem claim_C9_witness : sleepProp (printTextTrace env0).1 :=
  claim_C9 env0

/-- C10: `printText()` is invoked at most once (exactly once in a
completed run), and all module-level LED setup precedes the invocation
and every SPI, display, font and draw operation; at the invocation the
three LED pins are outputs driven high. -/
theorem claim_C10 (env : Env) :
    moduleOrderProp (moduleTrace env).1 ∧
    ((moduleTrace env).2 = true →
      (moduleTrace env).1.count Event.callPrintText = 1) := by
  rcases moduleTrace_shape env with hfull | ⟨k, hk1, hk2, heq⟩
  · rw [hfull]
    exact ⟨by decide, fun _ => by decide⟩
  · rw [heq]
    exact ⟨moduleOrder_take ⟨k, by omega⟩, fun hc => Bool.noConfusion hc⟩

/-- Witness for C10 at the no-failure environment. -/
theorem claim_C10_witness :
    moduleOrderProp (moduleTrace env0).1 ∧
    ((moduleTrace env0).2 = true →
      (moduleTrace env0).1.count Event.callPrintText = 1) :=
  claim_C10 env0
